import Mathlib

/-!
Verification development for `baseline_agents/coder_utils.py` (POPPER).

The file shallowly embeds the three core components of that module:

* `CustomOutputParser.parse` — classifies raw model text as a final answer
  or a tool invocation (regex-based);
* `CustomPythonAstREPLTool._run` — the one-shot gated code executor,
  modelled with an explicit execution oracle and explicit stream routing;
* `CustomPromptTemplate.format`'s scratchpad construction.

Strings are modelled as `List Char` (`Str`).  Character classes (`\s`,
`\d`, lowercasing, `str.strip`) are modelled for the ASCII range, which
covers every literal the module manipulates.
-/

set_option maxRecDepth 8000

abbrev Str := List Char

/-- Coerce a Lean string literal to the `List Char` representation. -/
def str (s : String) : Str := s.data

/-- Python `\s` / `str.isspace` on the ASCII range:
space, tab, newline, carriage return, vertical tab, form feed. -/
def isSpace (c : Char) : Bool :=
  c == ' ' || c == '\t' || c == '\n' || c == '\r' || c == Char.ofNat 11 || c == Char.ofNat 12

/-- Python `\d` on the ASCII range. -/
def isDigit (c : Char) : Bool :=
  48 ≤ c.toNat && c.toNat ≤ 57

/-- `startsWith l p`: `p` is a prefix of `l` (Python `str.startswith`). -/
def startsWith : Str → Str → Bool
  | _, [] => true
  | [], _ :: _ => false
  | c :: rest, p :: ps => c == p && startsWith rest ps

/-- Python `str.endswith`. -/
def endsWith (l pat : Str) : Bool :=
  startsWith l.reverse pat.reverse

/-- `l` contains `pat` as a contiguous substring (Python `pat in l`). -/
def containsSub (pat : Str) : Str → Bool
  | [] => startsWith [] pat
  | c :: rest => startsWith (c :: rest) pat || containsSub pat rest

/-- Strip characters satisfying `p` from both ends
(Python `str.strip()` family: `strip()`, `strip(" ")`, `strip(chars)`). -/
def pyStripWhen (p : Char → Bool) (l : Str) : Str :=
  ((l.dropWhile p).reverse.dropWhile p).reverse

/-- Python `str.lower()` (ASCII). -/
def pyLower (l : Str) : Str := l.map Char.toLower

/-- Helper for Python `str.split(sep)` with a non-empty separator:
left-to-right scan over the text; `skip` counts characters still to be
consumed from a just-matched separator occurrence, `acc` holds the
current field reversed. -/
def splitOnAux (pat : Str) : Str → Nat → Str → List Str
  | [], _, acc => [acc.reverse]
  | _ :: rest, Nat.succ k, acc => splitOnAux pat rest k acc
  | c :: rest, 0, acc =>
      if startsWith (c :: rest) pat then
        acc.reverse :: splitOnAux pat rest (pat.length - 1) []
      else splitOnAux pat rest 0 (c :: acc)

/-- Python `str.split(sep)` (non-overlapping, keeps empty fields). -/
def pySplit (pat : Str) (l : Str) : List Str :=
  match pat with
  | [] => [l]
  | _ :: _ => splitOnAux pat l 0 []

/-- Helper for Python `str.split()` (no separator): split on whitespace
runs, dropping empty fields; `acc` holds the current token reversed. -/
def splitWsAux : Str → Str → List Str
  | [], acc => if acc.isEmpty then [] else [acc.reverse]
  | c :: rest, acc =>
      if isSpace c then
        if acc.isEmpty then splitWsAux rest [] else acc.reverse :: splitWsAux rest []
      else splitWsAux rest (c :: acc)

/-- Python `str.split()` with no argument. -/
def pySplitWs (l : Str) : List Str := splitWsAux l []

example : pySplitWs (str " a  b ") = [str "a", str "b"] := by decide

example : pySplit (str "Final Answer:") (str "x Final Answer: yes") = [str "x ", str " yes"] := by decide

example : (pySplit (str "Final Answer:") (str "a Final Answer: b Final Answer:")).getLastD (str "?") = [] := by decide

/-! ### Response Parser (`CustomOutputParser.parse`)

The action branch of `parse` applies the Python regex

    Action\s*\d*\s*:(.*?)\nAction\s*\d*\s*Input\s*\d*\s*:[\s]*(.*)

with `re.search` and `re.DOTALL`.  The matcher below implements exactly
that pattern's search semantics, specialised to this pattern:

* `re.search` tries start positions left to right; the pattern begins
  with the literal "Action";
* a fragment spaces-digits-spaces followed by a literal can only consume
  the maximal run of whitespace/digit characters after the previous
  literal (the next literal begins with a character that is neither), so
  that run must have the shape spaces-then-digits-then-spaces and be
  followed immediately by the literal;
* the lazy first group stops at the earliest newline whose suffix
  matches the remaining mandatory part of the pattern;
* after the second colon the greedy whitespace run is consumed and the
  greedy second group takes everything that remains (DOTALL).
-/

/-- Character class of the regex fragments `\s` and `\d` combined. -/
def isSD (c : Char) : Bool := isSpace c || isDigit c

/-- Does a span consist of whitespace, then digits, then whitespace
(the language of the regex fragment `\s*\d*\s*`)? -/
def sdsShape (l : Str) : Bool :=
  (((l.dropWhile isSpace).dropWhile isDigit).dropWhile isSpace).isEmpty

/-- Literal "Action" of the pattern. -/
def actionLit : Str := str "Action"

/-- Literal "Input" of the pattern. -/
def inputLit : Str := str "Input"

/-- Match the regex fragment `\s*\d*\s*:` at the head of `l`; on success
return what follows the colon. -/
def afterColon (l : Str) : Option Str :=
  if sdsShape (l.takeWhile isSD) then
    match l.dropWhile isSD with
    | ':' :: t => some t
    | _ => none
  else none

/-- Match the fragment `\s*\d*\s*Input\s*\d*\s*:[\s]*(.*)` at the head of
`l` (which sits right after the second "Action" literal); on success
return the second capture group. -/
def matchSecond (l : Str) : Option Str :=
  if sdsShape (l.takeWhile isSD) && startsWith (l.dropWhile isSD) inputLit then
    match afterColon (List.drop 5 (l.dropWhile isSD)) with
    | some t => some (t.dropWhile isSpace)
    | none => none
  else none

/-- Scan for the earliest newline followed by a match of the second
mandatory part of the pattern (the lazy group `(.*?)`); `acc` holds the
first capture group reversed. -/
def scanG1 : Str → Str → Option (Str × Str)
  | [], _ => none
  | c :: rest, acc =>
      if c == '\n' && startsWith rest actionLit then
        match matchSecond (List.drop 6 rest) with
        | some g2 => some (acc.reverse, g2)
        | none => scanG1 rest (c :: acc)
      else scanG1 rest (c :: acc)

/-- Try the whole pattern at each start position, left to right
(`re.search`); return the two capture groups of the leftmost match. -/
def searchFrom : Str → Option (Str × Str)
  | [] => none
  | c :: rest =>
      match (if startsWith (c :: rest) actionLit then
               match afterColon (List.drop 6 (c :: rest)) with
               | some t => scanG1 t []
               | none => none
             else none) with
      | some r => some r
      | none => searchFrom rest

/-- Semantics of `re.search(regex, llm_output, re.DOTALL)` for the
action/action-input pattern: the two capture groups, if any match. -/
def actionSearch (l : Str) : Option (Str × Str) := searchFrom l

/-- Failure outcomes of `CustomOutputParser.parse`: the explicit
`ValueError` carrying the raw text, or the `IndexError` raised by `[0]`
on an empty token list. -/
inductive ParseFail where
  | parseError (raw : Str)
  | indexError
  deriving DecidableEq

/-- Parsed responses: `AgentFinish` with its boolean output and raw log,
or `AgentAction` with tool name, tool input and raw log. -/
inductive Parsed where
  | finish (verdict : Bool) (log : Str)
  | action (tool : Str) (toolInput : Str) (log : Str)
  deriving DecidableEq

deriving instance DecidableEq for Except

/-- Literal marker "Final Answer:". -/
def finalAnswerMarker : Str := str "Final Answer:"

/-- Token spellings accepted by the final-answer branch. -/
def allowedTokens : List Str :=
  [str "true", str "false", str "yes", str "no", str "y", str "n"]

/-- Token spellings mapped to the verdict `true`. -/
def trueTokens : List Str := [str "true", str "yes", str "y"]

/-- Python `llm_output.split("Final Answer:")[-1]`: the text after the
last separator occurrence (the whole text when the marker is absent). -/
def lastSegment (l : Str) : Str := (pySplit finalAnswerMarker l).getLastD []

/-- Embedding of `CustomOutputParser.parse` (coder_utils.py lines
106-125). -/
def parse (llm_output : Str) : Except ParseFail Parsed :=
  if containsSub finalAnswerMarker llm_output then
    match pySplitWs (lastSegment llm_output) with
    | [] => Except.error ParseFail.indexError
    | tok :: _ =>
        let output := pyLower (pyStripWhen isSpace tok)
        if output ∈ allowedTokens then
          Except.ok (Parsed.finish (decide (output ∈ trueTokens)) llm_output)
        else
          Except.error (ParseFail.parseError llm_output)
  else
    match actionSearch llm_output with
    | some (g1, g2) =>
        Except.ok (Parsed.action (pyStripWhen isSpace g1)
          (pyStripWhen (fun c => c == '\"') (pyStripWhen (fun c => c == ' ') g2)) llm_output)
    | none => Except.error (ParseFail.parseError llm_output)

example : parse (str "Final Answer: True") = Except.ok (Parsed.finish true (str "Final Answer: True")) := by decide

example : parse (str "Final Answer: maybe") = Except.error (ParseFail.parseError (str "Final Answer: maybe")) := by decide

example : parse (str "Final Answer:  ") = Except.error ParseFail.indexError := by decide

example : actionSearch (str "Action: Foo\nAction Input: \"bar\"") = some (str " Foo", str "\"bar\"") := by decide

example : parse (str "Action: Foo\nAction Input: \"bar\"") = Except.ok (Parsed.action (str "Foo") (str "bar") (str "Action: Foo\nAction Input: \"bar\"")) := by decide

example : actionSearch (str "Thought: go\nAction 2 : tool\nAction 2 Input 3:  x = 1\ny = 2") = some (str " tool", str "x = 1\ny = 2") := by decide

example : parse (str "no structure here") = Except.error (ParseFail.parseError (str "no structure here")) := by decide

/-! ### Bounded Executor Tool (`CustomPythonAstREPLTool._run`)

The executor is stateful (turn counter) and effectful (it runs arbitrary
Python code and redirects the process output streams).  The embedding
makes those effects explicit:

* the execution of the assembled code is abstracted by an oracle
  `execFn : Str → ExecOutcome` giving, per code text, either the text
  captured on the output buffer (`ok`) or the message of the raised
  exception (`err`);
* the routing of standard output, standard error and the root logging
  handler's stream is a `Routing` record of sink identifiers threaded
  through the state; the in-memory capture buffer of one call is the
  sink `buf`;
* the result records which code text was passed to the oracle (`none`
  when the gate refused to execute) and the routing in force while the
  oracle ran, so that the claims about effects are statable.
-/

/-- Outcome of `exec(code, exec_globals)` under output capture: normal
completion with the captured buffer text, or an exception message. -/
inductive ExecOutcome where
  | ok (captured : Str)
  | err (msg : Str)
  deriving DecidableEq

/-- Where standard output, standard error and the root logging handler
stream currently point (sinks named by numbers). -/
structure Routing where
  stdout : Nat
  stderr : Nat
  logStream : Nat
  deriving DecidableEq

/-- Mutable state of one `CustomPythonAstREPLTool` instance: the
`max_turns` counter field (despite its name it counts executed turns,
starting at the field default 0) plus the ambient stream routing. -/
structure ToolState where
  max_turns : Nat
  routing : Routing
  deriving DecidableEq

/-- Module constant `MAX_TURNS`: the turn limit. -/
def MAX_TURNS : Nat := 1

/-- Gate refusal message returned verbatim (coder_utils.py lines
129-133). -/
def gateMsg : Str := str "You cannot run the code more than once - you have already run it earlier. Please provide the \"Final Answer:\" immediately after \"Thought:\", based on whatever information you got till now. Do not attempt to output an \"Action:\" or run the code again."

/-- Literal returned when the capture buffer is empty (line 165). -/
def noOutputMsg : Str := str "Execution completed without output."

/-- Pattern of the fence regex, three backtick characters. -/
def fenceLit : Str := str "```"

/-- Three double-quote characters. -/
def tripleQuote : Str := str "\"\"\""

/-- The language tag stripped from the head of extracted code. -/
def pythonTag : Str := str "python"

/-- Split at the first occurrence of `pat`: the text before it and the
text after it, or `none` when `pat` does not occur. -/
def splitFirstSub (pat : Str) : Str → Option (Str × Str)
  | [] => if startsWith [] pat then some ([], []) else none
  | c :: rest =>
      if startsWith (c :: rest) pat then some ([], List.drop pat.length (c :: rest))
      else
        match splitFirstSub pat rest with
        | some pr => some (c :: pr.1, pr.2)
        | none => none

/-- Semantics of `re.search(r"<fence>(.*?)<fence>", query, re.DOTALL)`:
the lazily captured region between the first fence occurrence and the
next fence occurrence after it.  (The leftmost match of that pattern
starts at the first fence occurrence that is followed by another one;
if the text after the first occurrence holds no second occurrence then
no later pair can exist either, because occurrences of a border-free
pattern cannot overlap.) -/
def fencedRegion (q : Str) : Option Str :=
  match splitFirstSub fenceLit q with
  | none => none
  | some (_, afterOpen) =>
      match splitFirstSub fenceLit afterOpen with
      | none => none
      | some (content, _) => some content

/-- Embedding of the code-extraction steps of `_run` (lines 136-148):
fenced region or whole query, `strip()`, one leading and one trailing
triple-quote removal each followed by a re-trim, and removal of a
leading "python" prefix followed by a re-trim. -/
def extractCode (query : Str) : Str :=
  let code := match fencedRegion query with
    | some inner => inner
    | none => query
  let code := pyStripWhen isSpace code
  let code := if startsWith code tripleQuote then (List.drop 3 code).dropWhile isSpace else code
  let code := if endsWith code tripleQuote then
      ((List.take (code.length - 3) code).reverse.dropWhile isSpace).reverse
    else code
  let code := if startsWith code pythonTag then (List.drop 6 code).dropWhile isSpace else code
  code

/-- The import statement prepended to every executed code text
(line 150). -/
def pandasImportLine : Str := str "import pandas as pd\n"

/-- The full code text handed to `exec` for a given query. -/
def buildCode (query : Str) : Str := pandasImportLine ++ extractCode query

example : extractCode (str "```python\nprint(1)\n```") = str "print(1)" := by decide

example : extractCode (str "python_var = 3") = str "_var = 3" := by decide

example : buildCode (str "```\nprint(1+1)\n```") = str "import pandas as pd\nprint(1+1)" := by decide

/-- Result of one `_run` call.  `executedCode` is the code text handed to
`exec`, or `none` when the gate refused; `routingDuring` is the routing
in force while `exec` ran (`none` when nothing ran). -/
structure RunResult where
  state : ToolState
  observation : Str
  executedCode : Option Str
  routingDuring : Option Routing
  deriving DecidableEq

/-- Embedding of `CustomPythonAstREPLTool._run` (lines 128-165).

Path by path:

* gate refusal (lines 129-133): the counter is at or above `MAX_TURNS`;
  the fixed message is returned, nothing is executed, state untouched;
* otherwise the counter is incremented first (line 134), the code is
  assembled (lines 136-150), and the `with redirect_stdout(buffer),
  redirect_stderr(buffer)` block routes standard output and standard
  error to the buffer while `logging.getLogger().handlers[0].stream`
  is assigned the buffer (lines 155-157);
* if `exec` raises, `return str(e)` leaves the `with` block, whose
  context managers restore standard output and standard error; the
  logging handler stream keeps pointing at the buffer, since no code
  restores it (lines 158-161);
* on normal completion the `with` block likewise restores standard
  output and standard error only, and the captured text (or the fixed
  no-output literal when it is empty) is returned (lines 163-165). -/
def runTool (execFn : Str → ExecOutcome) (buf : Nat) (st : ToolState) (query : Str) : RunResult :=
  if MAX_TURNS ≤ st.max_turns then
    { state := st, observation := gateMsg, executedCode := none, routingDuring := none }
  else
    match execFn (buildCode query) with
    | ExecOutcome.err e =>
        { state := { max_turns := st.max_turns + 1,
                     routing := { stdout := st.routing.stdout, stderr := st.routing.stderr,
                                  logStream := buf } },
          observation := e, executedCode := some (buildCode query),
          routingDuring := some { stdout := buf, stderr := buf, logStream := buf } }
    | ExecOutcome.ok out =>
        { state := { max_turns := st.max_turns + 1,
                     routing := { stdout := st.routing.stdout, stderr := st.routing.stderr,
                                  logStream := buf } },
          observation := if out.isEmpty then noOutputMsg else out,
          executedCode := some (buildCode query),
          routingDuring := some { stdout := buf, stderr := buf, logStream := buf } }

/-- A fresh tool instance: the `max_turns` field default 0, ambient
routing `r`. -/
def freshState (r : Routing) : ToolState := { max_turns := 0, routing := r }

/-- Run a sequence of `execute` calls against one tool instance,
recording for every call the state it was made in and its result. -/
def runSeq (execFn : Str → ExecOutcome) (buf : Nat) : ToolState → List Str → List (ToolState × RunResult)
  | _, [] => []
  | st, q :: qs =>
      let r := runTool execFn buf st q
      (st, r) :: runSeq execFn buf r.state qs

/-! ### Prompt Renderer (`CustomPromptTemplate.format`) -/

/-- The fields of an `AgentAction` as used by the renderer. -/
structure AgentActionRec where
  tool : Str
  toolInput : Str
  log : Str
  deriving DecidableEq

/-- Literal written before each observation. -/
def obsLit : Str := str "\nObservation: "

/-- Literal written after each observation. -/
def thoughtLit : Str := str "\nThought: "

/-- Embedding of the scratchpad construction of
`CustomPromptTemplate.format` (lines 88-97): the `thoughts` accumulator
over the (action, observation) pairs. -/
def formatThoughts (steps : List (AgentActionRec × Str)) : Str :=
  steps.foldl (fun thoughts p => thoughts ++ p.1.log ++ obsLit ++ p.2 ++ thoughtLit) []

/-! ### Definitions written from the specification's words

These definitions follow claim sentences rather than the code; each is
compared with the corresponding code-derived definition by a theorem.
-/

/-- Spec wording for the tool-input normalisation (claim C3): the
captured region "with leading/trailing spaces and any single pair of
surrounding double-quote characters stripped" — spaces off both ends,
then one double quote off each end when both ends carry one. -/
def specSinglePairQuoteStrip (l : Str) : Str :=
  let t := pyStripWhen (fun c => c == ' ') l
  if 2 ≤ t.length && startsWith t (str "\"") && endsWith t (str "\"") then
    List.drop 1 (List.take (t.length - 1) t)
  else t

/-- Stage 1 of the claimed extraction pipeline (claim C5): the content
of a triple-backtick fenced region if one exists, otherwise the whole
query. -/
def specFenceStage (q : Str) : Str :=
  match fencedRegion q with
  | some inner => inner
  | none => q

/-- Stage 2: trim whitespace. -/
def specTrimStage (l : Str) : Str := pyStripWhen isSpace l

/-- Stage 3: strip one leading triple-double-quote sequence if present
(with the whitespace it sets free re-trimmed). -/
def specLeadQuoteStage (l : Str) : Str :=
  if startsWith l tripleQuote then (List.drop 3 l).dropWhile isSpace else l

/-- Stage 4: strip one trailing triple-double-quote sequence if present
(with the whitespace it sets free re-trimmed). -/
def specTrailQuoteStage (l : Str) : Str :=
  if endsWith l tripleQuote then
    ((List.take (l.length - 3) l).reverse.dropWhile isSpace).reverse
  else l

/-- Stage 5 as the claim states it: strip a leading "python" language
tag if present — case-sensitive, followed by whitespace. -/
def specTagStageClaim (l : Str) : Str :=
  if startsWith l pythonTag &&
      (match List.drop 6 l with
       | c :: _ => isSpace c
       | [] => false) then
    (List.drop 6 l).dropWhile isSpace
  else l

/-- The extraction pipeline exactly as claim C5 states it. -/
def specExtractClaim (q : Str) : Str :=
  specTagStageClaim (specTrailQuoteStage (specLeadQuoteStage (specTrimStage (specFenceStage q))))

/-- Stage 5 as the code has it: strip a leading "python" prefix whenever
present, whatever follows it. -/
def specTagStage (l : Str) : Str :=
  if startsWith l pythonTag then (List.drop 6 l).dropWhile isSpace else l

/-- The extraction pipeline with the amended tag stage. -/
def specExtract (q : Str) : Str :=
  specTagStage (specTrailQuoteStage (specLeadQuoteStage (specTrimStage (specFenceStage q))))

/-! ## Theorems -/

/-- Helper: the scratchpad fold from any accumulator. -/
theorem formatThoughts_foldl (steps : List (AgentActionRec × Str)) (a : Str) :
    steps.foldl (fun thoughts p => thoughts ++ p.1.log ++ obsLit ++ p.2 ++ thoughtLit) a
      = a ++ (steps.map (fun p => p.1.log ++ obsLit ++ p.2 ++ thoughtLit)).flatten := by
  induction steps generalizing a with
  | nil => simp
  | cons s rest ih =>
      rw [List.foldl_cons, ih]
      simp [List.append_assoc]

/-- Claim C7: for every sequence of intermediate steps, the rendered
scratchpad is the concatenation, in order over the steps, of the step's
raw log, then the literal "\nObservation: " and the observation, then
the literal "\nThought: ". -/
theorem claim_C7_scratchpad_concat (steps : List (AgentActionRec × Str)) :
    formatThoughts steps
      = (steps.map (fun p => p.1.log ++ obsLit ++ p.2 ++ thoughtLit)).flatten := by
  have h := formatThoughts_foldl steps []
  simpa [formatThoughts] using h

/-- Helper: on text containing the marker whose last segment yields at
least one token, `parse` reduces to the token test. -/
theorem parse_token_cases (l tok : Str) (rest : List Str)
    (hm : containsSub finalAnswerMarker l = true)
    (ht : pySplitWs (lastSegment l) = tok :: rest) :
    parse l =
      (if pyLower (pyStripWhen isSpace tok) ∈ allowedTokens then
        Except.ok (Parsed.finish (decide (pyLower (pyStripWhen isSpace tok) ∈ trueTokens)) l)
      else Except.error (ParseFail.parseError l)) := by
  unfold parse
  rw [hm, ht]
  rfl

/-- Claim C2: for text containing "Final Answer:" with at least one
whitespace-delimited token after the last occurrence, the first such
token, lowercased, decides the parse — an unrecognised spelling raises
the ParseError carrying the raw text, a recognised one produces a final
answer whose verdict is membership in the true-spellings and whose log
is the whole text. -/
theorem claim_C2_final_token_decides (l tok : Str) (rest : List Str)
    (hm : containsSub finalAnswerMarker l = true)
    (ht : pySplitWs (lastSegment l) = tok :: rest) :
    (pyLower (pyStripWhen isSpace tok) ∉ allowedTokens →
        parse l = Except.error (ParseFail.parseError l))
    ∧ (pyLower (pyStripWhen isSpace tok) ∈ allowedTokens →
        parse l = Except.ok
          (Parsed.finish (decide (pyLower (pyStripWhen isSpace tok) ∈ trueTokens)) l)) := by
  have h := parse_token_cases l tok rest hm ht
  constructor
  · intro hn
    rw [h, if_neg hn]
  · intro hy
    rw [h, if_pos hy]

/-- Witness for C2: "Final Answer: maybe" satisfies the hypotheses and
parsing fails with the ParseError carrying the raw text. -/
theorem claim_C2_witness :
    parse (str "Final Answer: maybe")
      = Except.error (ParseFail.parseError (str "Final Answer: maybe")) :=
  (claim_C2_final_token_decides (str "Final Answer: maybe") (str "maybe") []
    (by decide) (by decide)).1 (by decide)

/-- Counterexample to claim C8 as stated: this text contains
"Final Answer: True" yet parses to verdict false, because the parser
reads the token after the last marker occurrence. -/
theorem claim_C8_counterexample :
    containsSub (str "Final Answer: True") (str "Final Answer: True\nFinal Answer: false") = true
    ∧ parse (str "Final Answer: True\nFinal Answer: false")
        = Except.ok (Parsed.finish false (str "Final Answer: True\nFinal Answer: false")) := by
  exact ⟨by decide, by decide⟩

/-- Claim C8 as amended: when the first whitespace-delimited token after
the last occurrence of "Final Answer:" lowercases to "true" the parse
yields verdict true; when it lowercases to "false", verdict false (log
is the whole text). -/
theorem claim_C8_amended_last_token_verdict (l tok : Str) (rest : List Str)
    (hm : containsSub finalAnswerMarker l = true)
    (ht : pySplitWs (lastSegment l) = tok :: rest) :
    (pyLower (pyStripWhen isSpace tok) = str "true" →
        parse l = Except.ok (Parsed.finish true l))
    ∧ (pyLower (pyStripWhen isSpace tok) = str "false" →
        parse l = Except.ok (Parsed.finish false l)) := by
  have h := parse_token_cases l tok rest hm ht
  constructor
  · intro he
    rw [h, he, if_pos (by decide)]
    rfl
  · intro he
    rw [h, he, if_pos (by decide)]
    rfl

/-- Witness for C8 as amended: a mixed-case "TRUE" with trailing text
parses to verdict true. -/
theorem claim_C8_witness :
    parse (str "Final Answer: TRUE indeed")
      = Except.ok (Parsed.finish true (str "Final Answer: TRUE indeed")) :=
  (claim_C8_amended_last_token_verdict (str "Final Answer: TRUE indeed") (str "TRUE")
    [str "indeed"] (by decide) (by decide)).1 (by decide)

/-- Helper: splitting an all-whitespace text on whitespace gives no
tokens. -/
theorem splitWsAux_all_space (l : Str) (h : l.all isSpace = true) : splitWsAux l [] = [] := by
  induction l with
  | nil => rfl
  | cons c rest ih =>
      rw [List.all_cons, Bool.and_eq_true] at h
      simp [splitWsAux, h.1, ih h.2]

/-- Claim C10: when the last occurrence of "Final Answer:" is followed
by whitespace only, the parser's indexing of the first token fails with
the out-of-range indexing error, not a final answer and not the
documented ParseError. -/
theorem claim_C10_trailing_marker_index_error (l : Str)
    (hm : containsSub finalAnswerMarker l = true)
    (hws : (lastSegment l).all isSpace = true) :
    parse l = Except.error ParseFail.indexError := by
  have hsplit : pySplitWs (lastSegment l) = [] := splitWsAux_all_space _ hws
  unfold parse
  rw [hm, hsplit]
  rfl

/-- Witness for C10: text ending exactly with the marker. -/
theorem claim_C10_witness :
    parse (str "Final Answer:") = Except.error ParseFail.indexError :=
  claim_C10_trailing_marker_index_error (str "Final Answer:") (by decide) (by decide)

/-- Counterexample to claim C3 as stated: on doubled surrounding quotes
the code strips every leading and trailing quote character, not a
single pair. -/
theorem claim_C3_counterexample :
    containsSub finalAnswerMarker (str "Action: Foo\nAction Input: \"\"bar\"\"") = false
    ∧ actionSearch (str "Action: Foo\nAction Input: \"\"bar\"\"")
        = some (str " Foo", str "\"\"bar\"\"")
    ∧ specSinglePairQuoteStrip (str "\"\"bar\"\"") = str "\"bar\""
    ∧ parse (str "Action: Foo\nAction Input: \"\"bar\"\"")
        ≠ Except.ok (Parsed.action (str "Foo") (specSinglePairQuoteStrip (str "\"\"bar\"\""))
            (str "Action: Foo\nAction Input: \"\"bar\"\""))
    ∧ parse (str "Action: Foo\nAction Input: \"\"bar\"\"")
        = Except.ok (Parsed.action (str "Foo") (str "bar")
            (str "Action: Foo\nAction Input: \"\"bar\"\"")) := by
  exact ⟨by decide, by decide, by decide, by decide, by decide⟩

/-- Claim C3 as amended: for marker-free text, a pattern match yields a
tool invocation whose name is the first captured region trimmed of
whitespace and whose input is the second captured region with
leading/trailing spaces stripped and then every leading and trailing
double-quote character stripped; no match yields the ParseError carrying
the raw text. -/
theorem claim_C3_amended_action_parse (l : Str)
    (hm : containsSub finalAnswerMarker l = false) :
    (∀ g1 g2 : Str, actionSearch l = some (g1, g2) →
        parse l = Except.ok (Parsed.action (pyStripWhen isSpace g1)
          (pyStripWhen (fun c => c == '\"') (pyStripWhen (fun c => c == ' ') g2)) l))
    ∧ (actionSearch l = none → parse l = Except.error (ParseFail.parseError l)) := by
  constructor
  · intro g1 g2 hs
    unfold parse
    rw [hm, hs]
    rfl
  · intro hs
    unfold parse
    rw [hm, hs]
    rfl

/-- Witness for C3 as amended, at the claim's own example. -/
theorem claim_C3_witness :
    parse (str "Action: Foo\nAction Input: \"bar\"")
      = Except.ok (Parsed.action (str "Foo") (str "bar")
          (str "Action: Foo\nAction Input: \"bar\"")) := by
  have h := (claim_C3_amended_action_parse (str "Action: Foo\nAction Input: \"bar\"")
      (by decide)).1 (str " Foo") (str "\"bar\"") (by decide)
  exact h.trans (by decide)

/-- Counterexample to claim C5 as stated: a leading "python" prefix not
followed by whitespace is still stripped by the code, while the claimed
pipeline leaves it in place. -/
theorem claim_C5_counterexample :
    buildCode (str "python_var = 3") = str "import pandas as pd\n_var = 3"
    ∧ specExtractClaim (str "python_var = 3") = str "python_var = 3"
    ∧ buildCode (str "python_var = 3")
        ≠ pandasImportLine ++ specExtractClaim (str "python_var = 3") := by
  exact ⟨by decide, by decide, by decide⟩

/-- Claim C5 as amended: the executed code is the claimed pipeline —
fenced region or whole query, trim, one leading/trailing triple-quote
strip, leading "python" strip — with the tag stripped whenever the
"python" prefix is present, whatever follows it, and the fixed
pandas-import line prepended; on a tag followed by whitespace the
claimed stage and the code agree. -/
theorem claim_C5_amended_extraction (q : Str) :
    buildCode q = pandasImportLine ++ specExtract q
    ∧ specExtractClaim (str "```python\nprint(1)\n```") = str "print(1)"
    ∧ extractCode (str "```python\nprint(1)\n```") = str "print(1)" := by
  exact ⟨rfl, by decide, by decide⟩

/-- Helper: at or above the limit, `_run` refuses, returns the gate
message, executes nothing and leaves the state untouched. -/
theorem runTool_gated (execFn : Str → ExecOutcome) (buf : Nat) (st : ToolState) (q : Str)
    (h : MAX_TURNS ≤ st.max_turns) :
    runTool execFn buf st q
      = { state := st, observation := gateMsg, executedCode := none, routingDuring := none } := by
  unfold runTool
  rw [if_pos h]

/-- Helper: below the limit, `_run` increments the counter and hands the
assembled code to the execution oracle, whatever the outcome. -/
theorem runTool_exec_state (execFn : Str → ExecOutcome) (buf : Nat) (st : ToolState) (q : Str)
    (h : st.max_turns < MAX_TURNS) :
    (runTool execFn buf st q).state.max_turns = st.max_turns + 1
    ∧ (runTool execFn buf st q).executedCode = some (buildCode q) := by
  unfold runTool
  rw [if_neg (Nat.not_le.mpr h)]
  cases execFn (buildCode q) <;> exact ⟨rfl, rfl⟩

/-- Helper: from a state at the limit, a whole call sequence is gated:
every call returns the gate record and the state never changes. -/
theorem runSeq_gated (execFn : Str → ExecOutcome) (buf : Nat) (qs : List Str) (st : ToolState)
    (h : MAX_TURNS ≤ st.max_turns) :
    runSeq execFn buf st qs
      = qs.map (fun _ =>
          (st, { state := st, observation := gateMsg, executedCode := none,
                 routingDuring := none })) := by
  induction qs with
  | nil => rfl
  | cons q rest ih =>
      show (st, runTool execFn buf st q) :: runSeq execFn buf (runTool execFn buf st q).state rest
        = _
      rw [runTool_gated execFn buf st q h]
      exact congrArg (List.cons _) ih

/-- Claim C1: over any call sequence on a fresh tool instance the turn
counter never exceeds the limit 1; any call made at the limit returns
the gate message verbatim, executes no code and leaves the state
unchanged; every call after the first executes nothing, and the first
call is the one that hands its code to the execution oracle. -/
theorem claim_C1_one_shot_gate (execFn : Str → ExecOutcome) (buf : Nat) (r0 : Routing)
    (qs : List Str) :
    (∀ p ∈ runSeq execFn buf (freshState r0) qs,
        p.1.max_turns ≤ MAX_TURNS ∧ p.2.state.max_turns ≤ MAX_TURNS)
    ∧ (∀ p ∈ runSeq execFn buf (freshState r0) qs,
        MAX_TURNS ≤ p.1.max_turns →
          p.2.observation = gateMsg ∧ p.2.executedCode = none ∧ p.2.state = p.1)
    ∧ (∀ p ∈ List.drop 1 (runSeq execFn buf (freshState r0) qs), p.2.executedCode = none)
    ∧ (∀ q rest, qs = q :: rest →
        (runSeq execFn buf (freshState r0) qs).head?
            = some (freshState r0, runTool execFn buf (freshState r0) q)
        ∧ (runTool execFn buf (freshState r0) q).executedCode = some (buildCode q)) := by
  cases qs with
  | nil =>
      refine ⟨?_, ?_, ?_, ?_⟩
      · intro p hp
        cases hp
      · intro p hp
        cases hp
      · intro p hp
        cases hp
      · intro q rest heq
        cases heq
  | cons q rest =>
      have hstep := runTool_exec_state execFn buf (freshState r0) q Nat.zero_lt_one
      have hone : (runTool execFn buf (freshState r0) q).state.max_turns = 1 := hstep.1
      have hseq : runSeq execFn buf (freshState r0) (q :: rest)
          = (freshState r0, runTool execFn buf (freshState r0) q)
            :: rest.map (fun _ =>
                ((runTool execFn buf (freshState r0) q).state,
                 { state := (runTool execFn buf (freshState r0) q).state,
                   observation := gateMsg, executedCode := none, routingDuring := none })) := by
        show (freshState r0, runTool execFn buf (freshState r0) q)
            :: runSeq execFn buf (runTool execFn buf (freshState r0) q).state rest = _
        rw [runSeq_gated execFn buf rest _ (le_of_eq hone.symm)]
      refine ⟨?_, ?_, ?_, ?_⟩
      · intro p hp
        rw [hseq] at hp
        rcases List.mem_cons.mp hp with h | h
        · subst h
          exact ⟨Nat.zero_le 1, hone.le⟩
        · rcases List.mem_map.mp h with ⟨a, _, rfl⟩
          exact ⟨hone.le, hone.le⟩
      · intro p hp hlim
        rw [hseq] at hp
        rcases List.mem_cons.mp hp with h | h
        · subst h
          exact absurd hlim (Nat.not_succ_le_zero 0)
        · rcases List.mem_map.mp h with ⟨a, _, rfl⟩
          exact ⟨rfl, rfl, rfl⟩
      · intro p hp
        rw [hseq] at hp
        rcases List.mem_map.mp hp with ⟨a, _, rfl⟩
        rfl
      · intro q' rest' heq
        injection heq with hq hrest
        subst hq
        subst hrest
        exact ⟨by rw [hseq]; rfl, hstep.2⟩

/-- An execution oracle used by concrete witnesses: every code text
completes and captures the text "out". -/
def execOk : Str → ExecOutcome := fun _ => ExecOutcome.ok (str "out")

/-- Witness for C1: two calls on a fresh instance; the first returns the
captured output, the second the verbatim gate message. -/
theorem claim_C1_witness :
    (runSeq execOk 1 (freshState ⟨0, 0, 0⟩) [str "x=1", str "y=2"]).map
        (fun p => p.2.observation) = [str "out", gateMsg]
    ∧ (runSeq execOk 1 (freshState ⟨0, 0, 0⟩) [str "x=1", str "y=2"]).map
        (fun p => p.2.executedCode.isSome) = [true, false] := by
  exact ⟨by decide, by decide⟩

/-- Claim C4: on the first call of a fresh instance the counter is
incremented whatever the execution outcome — an execution error still
consumes the single allowed attempt — and on an error the tool returns
the error's message as an ordinary string observation. -/
theorem claim_C4_error_consumes_attempt (execFn : Str → ExecOutcome) (buf : Nat) (r0 : Routing)
    (q : Str) :
    (runTool execFn buf (freshState r0) q).state.max_turns = 1
    ∧ (∀ msg : Str, execFn (buildCode q) = ExecOutcome.err msg →
        (runTool execFn buf (freshState r0) q).observation = msg) := by
  constructor
  · exact (runTool_exec_state execFn buf (freshState r0) q Nat.zero_lt_one).1
  · intro msg hE
    unfold runTool
    rw [if_neg (Nat.not_le.mpr
      (show (freshState r0).max_turns < MAX_TURNS from Nat.zero_lt_one)), hE]

/-- An execution oracle for which every code text raises an exception
whose message is "division by zero". -/
def execBoom : Str → ExecOutcome := fun _ => ExecOutcome.err (str "division by zero")

/-- Witness for C4: a failing first call consumes the attempt and
returns the error message text. -/
theorem claim_C4_witness :
    (runTool execBoom 1 (freshState ⟨0, 0, 0⟩) (str "1/0")).state.max_turns = 1
    ∧ (runTool execBoom 1 (freshState ⟨0, 0, 0⟩) (str "1/0")).observation
        = str "division by zero" := by
  have h := claim_C4_error_consumes_attempt execBoom 1 ⟨0, 0, 0⟩ (str "1/0")
  exact ⟨h.1, h.2 (str "division by zero") rfl⟩

/-- Claim C9: when execution completes without error the tool returns
the captured buffer text, the fixed no-output literal when that buffer
is empty, and never an empty string. -/
theorem claim_C9_success_output (execFn : Str → ExecOutcome) (buf : Nat) (st : ToolState)
    (q : Str) (out : Str)
    (hlt : st.max_turns < MAX_TURNS) (hE : execFn (buildCode q) = ExecOutcome.ok out) :
    (out ≠ [] → (runTool execFn buf st q).observation = out)
    ∧ (out = [] → (runTool execFn buf st q).observation = noOutputMsg)
    ∧ (runTool execFn buf st q).observation ≠ [] := by
  have hrun : (runTool execFn buf st q).observation
      = (if out.isEmpty then noOutputMsg else out) := by
    unfold runTool
    rw [if_neg (Nat.not_le.mpr hlt), hE]
  cases out with
  | nil =>
      refine ⟨fun h => absurd rfl h, fun _ => by rw [hrun]; rfl, ?_⟩
      rw [hrun]
      decide
  | cons c cs =>
      refine ⟨fun _ => by rw [hrun]; rfl, fun h => List.noConfusion h, ?_⟩
      rw [hrun]
      exact fun h => List.noConfusion h

/-- An execution oracle for which every code text completes silently:
the capture buffer stays empty. -/
def execSilent : Str → ExecOutcome := fun _ => ExecOutcome.ok []

/-- Witness for C9: a silent successful execution returns the fixed
no-output literal. -/
theorem claim_C9_witness :
    (runTool execSilent 1 (freshState ⟨0, 0, 0⟩) (str "x = 1")).observation = noOutputMsg :=
  (claim_C9_success_output execSilent 1 (freshState ⟨0, 0, 0⟩) (str "x = 1") []
    Nat.zero_lt_one rfl).2.1 rfl

/-- Counterexample to claim C6 as stated: an executing call does not
restore the prior routing on exit — the root logging handler stream
keeps pointing at the per-call capture buffer. -/
theorem claim_C6_counterexample :
    (runTool execOk 5 (freshState ⟨1, 2, 3⟩) (str "print(1+1)")).routingDuring
        = some { stdout := 5, stderr := 5, logStream := 5 }
    ∧ (runTool execOk 5 (freshState ⟨1, 2, 3⟩) (str "print(1+1)")).state.routing
        ≠ { stdout := 1, stderr := 2, logStream := 3 }
    ∧ (runTool execOk 5 (freshState ⟨1, 2, 3⟩) (str "print(1+1)")).state.routing
        = { stdout := 1, stderr := 2, logStream := 5 } := by
  exact ⟨by decide, by decide, by decide⟩

/-- Claim C6 as amended: while the code runs, standard output, standard
error and the logging stream all point at the capture buffer; on every
exit path (normal completion or caught error) standard output and
standard error are restored to their prior sinks, while the logging
stream keeps pointing at the buffer. -/
theorem claim_C6_amended_routing (execFn : Str → ExecOutcome) (buf : Nat) (st : ToolState)
    (q : Str) (hlt : st.max_turns < MAX_TURNS) :
    (runTool execFn buf st q).routingDuring
        = some { stdout := buf, stderr := buf, logStream := buf }
    ∧ (runTool execFn buf st q).state.routing.stdout = st.routing.stdout
    ∧ (runTool execFn buf st q).state.routing.stderr = st.routing.stderr
    ∧ (runTool execFn buf st q).state.routing.logStream = buf := by
  unfold runTool
  rw [if_neg (Nat.not_le.mpr hlt)]
  cases execFn (buildCode q) <;> exact ⟨rfl, rfl, rfl, rfl⟩

/-- Witness for C6 as amended: on a concrete executing call standard
output returns to its prior sink and the logging stream stays on the
buffer. -/
theorem claim_C6_witness :
    (runTool execOk 5 (freshState ⟨1, 2, 3⟩) (str "print(1+1)")).state.routing.stdout = 1
    ∧ (runTool execOk 5 (freshState ⟨1, 2, 3⟩) (str "print(1+1)")).state.routing.logStream = 5 := by
  have h := claim_C6_amended_routing execOk 5 (freshState ⟨1, 2, 3⟩) (str "print(1+1)")
      Nat.zero_lt_one
  exact ⟨h.2.1, h.2.2.2⟩
